import Mathlib

/-!
Shallow embedding of the wppconnect session manager
(`src/controllers/sessionmanager.ts`) and of the `HostLayer` login sequencer
(host-layer file: auto-close timer, QR scan loop, `waitForLogin`), together
with theorems settling the frozen claims about them.

External collaborators (token storage, the session-construction function
`create`, the page probes, the ASCII QR renderer) are modelled as explicit
function parameters, following the collaborator interfaces of the spec.
Logging is elided except where a claim is about it.
-/

/-- Status events passed to the status observer callback (`statusFind`)
by the host layer. -/
inductive StatusEvent where
  | notLogged
  | qrReadError
  | qrReadSuccess
  | qrReadFail
  | isLogged
  | phoneNotConnected
  | inChat
  | autocloseCalled
deriving DecidableEq, Repr

/-- The recognized configuration options: session identifier, `autoClose`
duration in milliseconds, the `logQR` flag and the token-directory name.
The `logger` field is elided: it only routes log output. -/
structure CreateOptions where
  session : String
  autoClose : Int
  logQR : Bool
  folderNameToken : String
deriving DecidableEq, Repr

/-- A caller-supplied options object: every recognized field may be absent
(JavaScript `undefined`), in which case the default survives the spread. -/
structure PartialOptions where
  session : Option String
  autoClose : Option Int
  logQR : Option Bool
  folderNameToken : Option String
deriving DecidableEq, Repr

/-- Modelled from the spec: `defaultOptions` from `config/create-config` is
imported by the session manager, but its source file is not part of this
repository; the spec (section 6) lists the recognized options.  The concrete
default values are fixed representatives; no theorem below depends on them. -/
def defaultOptions : CreateOptions :=
  { session := "session", autoClose := 60000, logQR := true, folderNameToken := "tokens" }

/-- The object spread `{ ...defaultOptions, ...options }` with an optionally
absent `options` argument: present fields override the defaults. -/
def mergeOptions (options : Option PartialOptions) : CreateOptions :=
  match options with
  | none => defaultOptions
  | some o =>
    { session := o.session.getD defaultOptions.session
      autoClose := o.autoClose.getD defaultOptions.autoClose
      logQR := o.logQR.getD defaultOptions.logQR
      folderNameToken := o.folderNameToken.getD defaultOptions.folderNameToken }

/-- View a full configuration as an options object with every field present
(used when `initAllSessions` passes its merged options to `getSessionNames`). -/
def toPartial (c : CreateOptions) : PartialOptions :=
  { session := some c.session, autoClose := some c.autoClose,
    logQR := some c.logQR, folderNameToken := some c.folderNameToken }

/-- Remove the first occurrence of `pat` (JavaScript `String.replace(pat, e)`
with an empty replacement replaces only the first occurrence). -/
def removeFirst (pat : List Char) : List Char → List Char
  | [] => []
  | c :: rest =>
    if pat.isPrefixOf (c :: rest) then (c :: rest).drop pat.length
    else c :: removeFirst pat rest

/-- `m.replace(".data.json", "")` applied to one token file name. -/
def stripTokenSuffix (m : String) : String :=
  String.mk (removeFirst ".data.json".toList m.toList)

/-- The directory `getSessionNames` reads: the code resolves
`path.resolve(dirname, up, up, defaultOptions.folderNameToken)` against the
module-level `defaultOptions`, ignoring the merged options in scope.  Only
the final folder-name component is modelled. -/
def sessionTokenDirectory (_mergedOptions : CreateOptions) : String :=
  defaultOptions.folderNameToken

/-- `getSessionNames` (sessionmanager.ts, lines 30-45): merge the options,
list the token directory through the token-storage collaborator `reader`, and
strip the `.data.json` suffix from each file name.  On a read error, the
catch block logs `Error getAllTokens()` and the function falls off the end:
the first component is `none` (JavaScript `undefined`), not an empty list.
The second component is the error-log trace. -/
def getSessionNames (reader : String → Except String (List String))
    (options : Option PartialOptions) : Option (List String) × List String :=
  let mergedOptions := mergeOptions options
  match reader (sessionTokenDirectory mergedOptions) with
  | Except.ok sessions => (some (sessions.map stripTokenSuffix), [])
  | Except.error e => (none, ["Error getAllTokens() -> " ++ e])

/-- Session handles (`Whatsapp` instances) are opaque to the session manager;
a representative carrier. -/
abbrev SessionHandle := Nat

/-- The module-level `sessionArray`, used as a map from session name to
handle. -/
abbrev Registry := List (String × SessionHandle)

/-- `sessionArray[key] = value`: overwrite any entry for `key`. -/
def insertReg (r : Registry) (key : String) (h : SessionHandle) : Registry :=
  match r with
  | [] => [(key, h)]
  | (k, v) :: rest => if k = key then (key, h) :: rest else (k, v) :: insertReg rest key h

/-- One invocation of the construction collaborator `create` inside
`initAllSessions`: the arrow's `session` parameter, and the contents of the
shared `mergedOptions` object at the moment `create(mergedOptions)` is
called.  Every invocation receives the same object: the arrows of
`allSessionsNames.map(async (session) => ...)` run their synchronous
prefixes in order, each executing `mergedOptions.session = session` on the
one shared object before calling `create`. -/
structure CreateInvocation where
  identifier : String
  configAtInvocation : CreateOptions
deriving DecidableEq, Repr

/-- The synchronous fan-out of `allSessionsNames.map(async (session) => ...)`:
the invocation records in order, together with the final contents of the
shared `mergedOptions` object once every arrow has run its synchronous
prefix.  The final contents are what a construction observes if it reads the
shared object after its first await, since `Promise.all` is reached only
after all arrows have started. -/
def initFanOut (merged : CreateOptions) (names : List String) :
    List CreateInvocation × CreateOptions :=
  match names with
  | [] => ([], merged)
  | n :: rest =>
    let shared := { merged with session := n }
    let tail := initFanOut shared rest
    (⟨n, shared⟩ :: tail.1, tail.2)

/-- `initAllSessions` (sessionmanager.ts, lines 47-58): merge options,
enumerate session names, fan out one `create` call per name on the shared
merged options, and await them with `Promise.all`.  The collaborator `create`
is modelled as a function of the configuration snapshot at invocation time
(the reading most favourable to per-call isolation; `initFanOut` records the
shared object separately).  If `getSessionNames` returned `undefined`, the
member access `allSessionsNames.map` throws a `TypeError`.  `Promise.all`
rejects with the first rejection; otherwise each handle is stored in
`sessionArray` under the arrow's `session` parameter and the array is
returned. -/
def initAllSessions (reader : String → Except String (List String))
    (create : CreateOptions → Except String SessionHandle)
    (options : Option PartialOptions) (sessionArray : Registry) :
    Except String Registry :=
  let mergedOptions := mergeOptions options
  match (getSessionNames reader (some (toPartial mergedOptions))).1 with
  | none => Except.error "TypeError: allSessionsNames.map is not a function"
  | some allSessionsNames =>
    let invs := (initFanOut mergedOptions allSessionsNames).1
    let results := invs.map (fun inv => (inv.identifier, create inv.configAtInvocation))
    match results.findSome? (fun p =>
        match p.2 with
        | Except.error e => some e
        | Except.ok _ => none) with
    | some e => Except.error e
    | none =>
      Except.ok (results.foldl (fun r p =>
        match p.2 with
        | Except.ok h => insertReg r p.1 h
        | Except.error _ => r) sessionArray)

/-- The auto-close state of one `HostLayer`: `autoCloseInterval` is
`some remain` when an interval is scheduled (the field
`this.autoCloseInterval` is non-null), carrying the closure variable
`remain`; `live` counts intervals created by `setInterval` and not yet
cleared by `clearInterval` (making the at-most-one-countdown invariant
expressible); `pageClosed` is what `this.page.isClosed()` reports. -/
structure HostState where
  autoCloseInterval : Option Nat
  live : Nat
  pageClosed : Bool
deriving DecidableEq, Repr

/-- The state of a freshly constructed `HostLayer`: no interval, open page. -/
def freshHostState : HostState := ⟨none, 0, false⟩

/-- `Math.round(ms / 1000)` for a positive millisecond duration. -/
def jsRoundSec (ms : Int) : Nat := ((ms + 500) / 1000).toNat

/-- `cancelAutoClose`: `clearInterval(this.autoCloseInterval)` (a no-op on
null) and null out the field. -/
def cancelAutoClose (s : HostState) : HostState :=
  { s with autoCloseInterval := none,
           live := s.live - (if s.autoCloseInterval.isSome then 1 else 0) }

/-- `startAutoClose`: when `autoClose > 0` and no interval is scheduled,
schedule one with `remain = Math.round(autoClose / 1000)`; otherwise a
no-op. -/
def startAutoClose (opts : CreateOptions) (s : HostState) : HostState :=
  if 0 < opts.autoClose ∧ s.autoCloseInterval = none then
    { s with autoCloseInterval := some (jsRoundSec opts.autoClose),
             live := s.live + 1 }
  else s

/-- The second half of `tryAutoClose` (after the conditional cancel): when
`autoClose > 0`, the field is null and the page is open, emit
`autocloseCalled` to the status observer and close the page (an error from
the close attempt is swallowed). -/
def tryAutoCloseFire (opts : CreateOptions) (s1 : HostState) : HostState × List StatusEvent :=
  if 0 < opts.autoClose ∧ s1.autoCloseInterval = none ∧ s1.pageClosed = false then
    ({ s1 with pageClosed := true }, [StatusEvent.autocloseCalled])
  else (s1, [])

/-- `tryAutoClose`: cancel any scheduled interval, then attempt the close. -/
def tryAutoClose (opts : CreateOptions) (s : HostState) : HostState × List StatusEvent :=
  tryAutoCloseFire opts (if s.autoCloseInterval.isSome then cancelAutoClose s else s)

/-- One tick of the `setInterval` callback installed by `startAutoClose`:
without a scheduled interval nothing ticks; with one, self-cancel when the
page was closed by other means, otherwise decrement `remain` and, at
`remain <= 0`, call `tryAutoClose` (the per-tick log lines are elided). -/
def autoCloseTick (opts : CreateOptions) (s : HostState) : HostState × List StatusEvent :=
  match s.autoCloseInterval with
  | none => (s, [])
  | some remain =>
    if s.pageClosed then (cancelAutoClose s, [])
    else
      let r := remain - 1
      if r = 0 then tryAutoClose opts { s with autoCloseInterval := some r }
      else ({ s with autoCloseInterval := some r }, [])

/-- Run `n` one-second ticks, accumulating the emitted status events. -/
def runTicks (opts : CreateOptions) : Nat → HostState → HostState × List StatusEvent
  | 0, s => (s, [])
  | n + 1, s =>
    let t := autoCloseTick opts s
    let rest := runTicks opts n t.1
    (rest.1, t.2 ++ rest.2)

/-- The operations that touch the auto-close timer state. -/
inductive TimerOp where
  | start
  | cancel
  | tick
  | tryClose
deriving DecidableEq, Repr

/-- Apply one timer operation (events discarded). -/
def applyOp (opts : CreateOptions) (s : HostState) : TimerOp → HostState
  | TimerOp.start => startAutoClose opts s
  | TimerOp.cancel => cancelAutoClose s
  | TimerOp.tick => (autoCloseTick opts s).1
  | TimerOp.tryClose => (tryAutoClose opts s).1

/-- Apply a sequence of timer operations. -/
def runOps (opts : CreateOptions) (s : HostState) (ops : List TimerOp) : HostState :=
  ops.foldl (applyOp opts) s

/-- The field `autoCloseInterval` accounts for every uncancelled interval:
`live` is 1 when an interval is scheduled and 0 otherwise. -/
def timerConsistent (s : HostState) : Prop :=
  s.live = if s.autoCloseInterval.isSome then 1 else 0

/-- A scraped QR result: `urlCode` (the empty string models a falsy value)
and the rendered image. -/
structure ScrapQr where
  urlCode : String
  base64Image : String
deriving DecidableEq, Repr

/-- `getQrCode`: prefer the fast scrape; if it rejected (`none`) or yielded a
falsy `urlCode`, fall back to the slower retrieval (each `.catch` maps a
rejection to `undefined`, i.e. `none`). -/
def getQrCode (scrape retrieve : Option ScrapQr) : Option ScrapQr :=
  match scrape with
  | some q => if q.urlCode = "" then retrieve else some q
  | none => retrieve

/-- The oracle for one iteration of the `waitForQrCodeScan` loop: the
`needsToScan` probe result (`none` models a caught rejection or nullish
result) and the results of the two QR fetch paths consumed by `getQrCode`. -/
structure ScanIteration where
  needsScan : Option Bool
  scrape : Option ScrapQr
  retrieve : Option ScrapQr
deriving DecidableEq, Repr

/-- One recorded invocation of the `catchQR` observer callback, with the
arguments the code passes: image, rendered ASCII form, attempt counter,
`urlCode`, session identifier. -/
structure QrCall where
  base64Image : String
  asciiQR : String
  attempt : Nat
  urlCode : String
  session : String
deriving DecidableEq, Repr

/-- The loop of `waitForQrCodeScan`, one `ScanIteration` of the oracle per
iteration.  `last` and `attempt` are the loop variables `urlCode` and
`attempt`; the result lists the `catchQR` invocations in order, paired with
`true` when the loop broke out on a falsy `needsToScan` or a missing code
(`false` when the oracle ran out while the loop would poll again — the loop
is unbounded in the code).  The ASCII form is rendered through the
collaborator `ascii` only when `logQR` is set or a `catchQR` callback is
registered. -/
def scanRec (opts : CreateOptions) (ascii : String → String) (useCatchQR : Bool)
    (sessionName : String) : Option String → Nat → List ScanIteration →
    List QrCall × Bool
  | _, _, [] => ([], false)
  | last, attempt, it :: rest =>
    if it.needsScan ≠ some true then ([], true)
    else
      match getQrCode it.scrape it.retrieve with
      | none => ([], true)
      | some q =>
        if q.urlCode = "" then ([], true)
        else if last ≠ some q.urlCode then
          let a := attempt + 1
          let txt := if opts.logQR || useCatchQR then ascii q.urlCode else ""
          let calls := if useCatchQR then [QrCall.mk q.base64Image txt a q.urlCode sessionName]
            else []
          let next := scanRec opts ascii useCatchQR sessionName (some q.urlCode) a rest
          (calls ++ next.1, next.2)
        else
          scanRec opts ascii useCatchQR sessionName last attempt rest

/-- `waitForQrCodeScan`: the loop started with no previous code and a zero
attempt counter. -/
def waitForQrCodeScan (opts : CreateOptions) (ascii : String → String)
    (useCatchQR : Bool) (sessionName : String) (iters : List ScanIteration) :
    List QrCall × Bool :=
  scanRec opts ascii useCatchQR sessionName none 0 iters

/-- `waitForInChat`: re-probe `isInsideChat` while it returns `false`.
`none` means the oracle ran out (the loop is unbounded in the code);
otherwise the first non-false probe result (`some true`, or `none` inside
for a nullish result). -/
def waitForInChat : List (Option Bool) → Option (Option Bool)
  | [] => none
  | r :: rest => if r = some false then waitForInChat rest else some r

/-- The terminal outcome of one `waitForLogin` run: success (`return true`),
a raised failure reason, or divergence (an unbounded polling loop exhausted
its oracle). -/
inductive LoginOutcome where
  | connected
  | thrown (reason : String)
  | diverged
deriving DecidableEq, Repr

/-- The probe oracle for one `waitForLogin` run: the first `isAuthenticated`
probe (`none` models a caught rejection), the scan-loop iterations, the
post-scan `isAuthenticated` re-probe, and the successive `isInsideChat`
results.  Probes are modelled as value-returning. -/
structure LoginEnv where
  firstAuth : Option Bool
  scanIters : List ScanIteration
  reAuth : Option Bool
  inChatResults : List (Option Bool)
deriving DecidableEq, Repr

/-- The observable result of one `waitForLogin` run: outcome, the status
events in emission order, the `catchQR` invocations, and the final host
state. -/
structure LoginRun where
  outcome : LoginOutcome
  events : List StatusEvent
  qrCalls : List QrCall
  finalState : HostState
deriving DecidableEq, Repr

/-- Lines 276-305 of `waitForLogin`, entered with the current value of the
`authenticated` variable: the `authenticated === true` block (timer reset,
in-chat wait, `inChat` on success, `phoneNotConnected` on a nullish in-chat
result), then the `authenticated === false` check raising `Not logged`, then
the `Unknow error` fallthrough. -/
def loginContinue (opts : CreateOptions) (env : LoginEnv) (a : Option Bool)
    (evs : List StatusEvent) (qrs : List QrCall) (s : HostState) : LoginRun :=
  match a with
  | some true =>
    match waitForInChat env.inChatResults with
    | none => ⟨LoginOutcome.diverged, evs, qrs, startAutoClose opts (cancelAutoClose s)⟩
    | some (some true) =>
      ⟨LoginOutcome.connected, evs ++ [StatusEvent.inChat], qrs,
        cancelAutoClose (startAutoClose opts (cancelAutoClose s))⟩
    | some _other =>
      ⟨LoginOutcome.thrown "Phone not connected",
        evs ++ [StatusEvent.phoneNotConnected]
          ++ (tryAutoClose opts (startAutoClose opts (cancelAutoClose s))).2,
        qrs, (tryAutoClose opts (startAutoClose opts (cancelAutoClose s))).1⟩
  | some false =>
    ⟨LoginOutcome.thrown "Not logged", evs ++ (tryAutoClose opts s).2, qrs,
      (tryAutoClose opts s).1⟩
  | none =>
    ⟨LoginOutcome.thrown "Unknow error", evs ++ (tryAutoClose opts s).2, qrs,
      (tryAutoClose opts s).1⟩

/-- `waitForLogin` (HostLayer): wait for the page load (no modelled effect),
probe authentication, start the auto-close timer, run the QR-scan branch
when unauthenticated (emitting `notLogged`, scanning, re-probing, and
classifying the re-probe as `qrReadError` / `qrReadSuccess` / `qrReadFail`
with the `Failed to read the QRCode` raise), and finish with the common tail
`loginContinue` on the final `authenticated` value. -/
def waitForLogin (opts : CreateOptions) (useCatchQR : Bool)
    (ascii : String → String) (sessionName : String) (env : LoginEnv)
    (s : HostState) : LoginRun :=
  match env.firstAuth with
  | some false =>
    match waitForQrCodeScan opts ascii useCatchQR sessionName env.scanIters with
    | (qrs, false) => ⟨LoginOutcome.diverged, [StatusEvent.notLogged], qrs,
        startAutoClose opts s⟩
    | (qrs, true) =>
      match env.reAuth with
      | none =>
        loginContinue opts env none [StatusEvent.notLogged, StatusEvent.qrReadError] qrs
          (startAutoClose opts s)
      | some true =>
        loginContinue opts env (some true)
          [StatusEvent.notLogged, StatusEvent.qrReadSuccess] qrs (startAutoClose opts s)
      | some false =>
        ⟨LoginOutcome.thrown "Failed to read the QRCode",
          [StatusEvent.notLogged, StatusEvent.qrReadFail]
            ++ (tryAutoClose opts (startAutoClose opts s)).2,
          qrs, (tryAutoClose opts (startAutoClose opts s)).1⟩
  | some true =>
    loginContinue opts env (some true) [StatusEvent.isLogged] [] (startAutoClose opts s)
  | none =>
    loginContinue opts env none [] [] (startAutoClose opts s)

/-- The sequence of truthy QR codes the scan loop processes before breaking:
the per-iteration fetch results, cut at the first falsy `needsToScan` or
missing code. -/
def fetchedCodes : List ScanIteration → List String
  | [] => []
  | it :: rest =>
    if it.needsScan ≠ some true then []
    else
      match getQrCode it.scrape it.retrieve with
      | none => []
      | some q => if q.urlCode = "" then [] else q.urlCode :: fetchedCodes rest

/-- Collapse consecutive repeats of a code sequence, relative to a previously
seen code. -/
def dedupFrom (last : Option String) : List String → List String
  | [] => []
  | c :: cs => if last ≠ some c then c :: dedupFrom (some c) cs else dedupFrom last cs

/-- A scan iteration whose scrape succeeds with the given code. -/
def qrIter (code : String) : ScanIteration :=
  ⟨some true, some ⟨code, "img-" ++ code⟩, none⟩

/-- The scrape sequence `[A, A, B, B, B]` followed by a falsy `needsToScan`
that ends the loop. -/
def exampleScrapes : List ScanIteration :=
  [qrIter "A", qrIter "A", qrIter "B", qrIter "B", qrIter "B",
    ⟨some false, none, none⟩]

/-- The options used by the concrete login runs below: `autoClose` disabled,
`logQR` off. -/
def plainOpts : CreateOptions := ⟨"s1", 0, false, "tokens"⟩

/-- A trivial ASCII QR renderer for concrete runs. -/
def plainAscii : String → String := fun _ => ""

/-- The oracle of the C4 counterexample: unauthenticated at first, the scan
loop ends immediately, and the re-probe is indeterminate. -/
def c4env : LoginEnv := ⟨some false, [⟨some false, none, none⟩], none, []⟩

/-- The oracle of the C6 witness: authenticated at once, in chat at the first
probe. -/
def c6env : LoginEnv := ⟨some true, [], none, [some true]⟩

/-- A token-storage collaborator whose directory listing always fails. -/
def c1reader : String → Except String (List String) :=
  fun _ => Except.error "ENOENT"

/-- A token-storage collaborator holding two token files. -/
def c2reader : String → Except String (List String) :=
  fun _ => Except.ok ["a.data.json", "b.data.json"]

/-- A construction collaborator that rejects exactly for identifier `a`. -/
def c2create : CreateOptions → Except String SessionHandle :=
  fun c => if c.session = "a" then Except.error "construction failed" else Except.ok 7

/-- Claim C1 (code behaviour at the failing input): when the token-directory
read raises, `getSessionNames` logs the error and returns `undefined`
(`none`), not an empty list, and `initAllSessions` then throws a `TypeError`
calling `.map` on `undefined` instead of returning the registry unchanged. -/
theorem c1_enumeration_failure_returns_undefined :
    (getSessionNames c1reader none).1 = none
    ∧ (getSessionNames c1reader none).2 = ["Error getAllTokens() -> ENOENT"]
    ∧ initAllSessions c1reader (fun _ => Except.ok 0) none []
        = Except.error "TypeError: allSessionsNames.map is not a function" :=
  ⟨rfl, rfl, rfl⟩

/-- Claim C2 counterexample: with the two known identifiers `a` and `b` and a
construction collaborator rejecting exactly for `a`, `initAllSessions`
rejects (the `Promise.all` pattern aborts on the first rejection) instead of
completing with a registry holding the handle for `b`. -/
theorem c2_counterexample :
    initAllSessions c2reader c2create none [] = Except.error "construction failed" :=
  rfl

/-- Claim C2 as amended: whenever the enumeration succeeds and at least one
construction rejects, `initAllSessions` rejects rather than returning the
registry. -/
theorem c2_amended_rejection_propagates
    (reader : String → Except String (List String))
    (create : CreateOptions → Except String SessionHandle)
    (options : Option PartialOptions) (sessionArray : Registry)
    (names : List String)
    (hn : (getSessionNames reader (some (toPartial (mergeOptions options)))).1 = some names)
    (hrej : ∃ inv ∈ (initFanOut (mergeOptions options) names).1,
        ∃ e, create inv.configAtInvocation = Except.error e) :
    ∃ e, initAllSessions reader create options sessionArray = Except.error e := by
  obtain ⟨inv, hmem, e, herr⟩ := hrej
  simp only [initAllSessions]
  rw [hn]
  rcases hfind : ((initFanOut (mergeOptions options) names).1.map
      (fun inv => (inv.identifier, create inv.configAtInvocation))).findSome? (fun p =>
        match p.2 with
        | Except.error e => some e
        | Except.ok _ => none) with _ | e'
  · exfalso
    have hall := List.findSome?_eq_none_iff.mp hfind
      ((inv.identifier, create inv.configAtInvocation))
      (List.mem_map_of_mem (fun inv => (inv.identifier, create inv.configAtInvocation)) hmem)
    rw [herr] at hall
    simp at hall
  · exact ⟨e', by simp [hfind]⟩

/-- Claim C2 witness: the amended statement at the concrete failing input of
the counterexample. -/
theorem c2_witness :
    (getSessionNames c2reader (some (toPartial (mergeOptions none)))).1 = some ["a", "b"]
    ∧ (∃ inv ∈ (initFanOut (mergeOptions none) ["a", "b"]).1,
        ∃ e, c2create inv.configAtInvocation = Except.error e)
    ∧ ∃ e, initAllSessions c2reader c2create none [] = Except.error e :=
  ⟨rfl,
   ⟨⟨"a", { defaultOptions with session := "a" }⟩, by decide, "construction failed", rfl⟩,
   c2_amended_rejection_propagates c2reader c2create none [] ["a", "b"] rfl
     ⟨⟨"a", { defaultOptions with session := "a" }⟩, by decide, "construction failed", rfl⟩⟩

/-- Claim C3 (code behaviour at the failing input): with identifiers `a` and
`b`, each invocation momentarily sees its own identifier in the shared
`mergedOptions` object, but after the synchronous fan-out the one object all
constructions received holds the last identifier `b` — there is no per-call
configuration, so a construction reading the object after its first await
observes a sibling's identifier. -/
theorem c3_shared_config_last_identifier :
    ((initFanOut (mergeOptions none) ["a", "b"]).1.map
        (fun inv => (inv.identifier, inv.configAtInvocation.session))
      = [("a", "a"), ("b", "b")])
    ∧ (initFanOut (mergeOptions none) ["a", "b"]).2.session = "b" :=
  ⟨rfl, rfl⟩

/-- Claim C10: the token directory read by `getSessionNames` is derived from
the default configuration's `folderNameToken` whatever the caller passed, so
two calls with different options read the same directory and return the same
identifiers. -/
theorem c10_folder_name_token_ignored
    (reader : String → Except String (List String))
    (o1 o2 : Option PartialOptions) :
    sessionTokenDirectory (mergeOptions o1) = defaultOptions.folderNameToken
    ∧ getSessionNames reader o1 = getSessionNames reader o2 :=
  ⟨rfl, rfl⟩

/-- Ticks do nothing when no interval is scheduled. -/
theorem runTicks_no_interval (opts : CreateOptions) :
    ∀ (n : Nat) (s : HostState), s.autoCloseInterval = none → runTicks opts n s = (s, []) := by
  intro n
  induction n with
  | zero => intro s _; rfl
  | succ m ih =>
    intro s hs
    have ht : autoCloseTick opts s = (s, []) := by
      simp [autoCloseTick, hs]
    simp [runTicks, ht, ih s hs]

/-- Claim C7: with `autoClose <= 0`, `startAutoClose` is a no-op and no tick
ever fires the close action; with `autoClose = 5000` and no cancellation, the
first four ticks emit nothing and by the fifth tick the close action has
fired, closing the page and emitting `autocloseCalled` exactly once (further
ticks add nothing). -/
theorem c7_autoclose_zero_and_5000 (o1 o2 : CreateOptions)
    (h1 : o1.autoClose ≤ 0) (h2 : o2.autoClose = 5000) :
    (∀ s : HostState, startAutoClose o1 s = s)
    ∧ (∀ (n : Nat) (s : HostState), s.autoCloseInterval = none →
        runTicks o1 n s = (s, []))
    ∧ (runTicks o2 4 (startAutoClose o2 freshHostState)).2 = []
    ∧ (∀ n : Nat, runTicks o2 (n + 5) (startAutoClose o2 freshHostState)
        = (⟨none, 0, true⟩, [StatusEvent.autocloseCalled])) := by
  have hstart : startAutoClose o2 freshHostState = ⟨some 5, 1, false⟩ := by
    have h5 : jsRoundSec 5000 = 5 := by decide
    simp [startAutoClose, freshHostState, h5, h2]
  have ht5 : autoCloseTick o2 ⟨some 5, 1, false⟩ = (⟨some 4, 1, false⟩, []) := by
    simp [autoCloseTick]
  have ht4 : autoCloseTick o2 ⟨some 4, 1, false⟩ = (⟨some 3, 1, false⟩, []) := by
    simp [autoCloseTick]
  have ht3 : autoCloseTick o2 ⟨some 3, 1, false⟩ = (⟨some 2, 1, false⟩, []) := by
    simp [autoCloseTick]
  have ht2 : autoCloseTick o2 ⟨some 2, 1, false⟩ = (⟨some 1, 1, false⟩, []) := by
    simp [autoCloseTick]
  have ht1 : autoCloseTick o2 ⟨some 1, 1, false⟩
      = (⟨none, 0, true⟩, [StatusEvent.autocloseCalled]) := by
    have hpos : (0 : Int) < o2.autoClose := by rw [h2]; decide
    simp [autoCloseTick, tryAutoClose, tryAutoCloseFire, cancelAutoClose, hpos]
  refine ⟨?_, ?_, ?_, ?_⟩
  · intro s
    have : ¬ (0 < o1.autoClose ∧ s.autoCloseInterval = none) := by
      rintro ⟨hpos, _⟩; omega
    simp [startAutoClose, this]
  · exact runTicks_no_interval o1
  · rw [hstart]
    simp [runTicks, ht5, ht4, ht3, ht2]
  · intro n
    rw [hstart]
    show runTicks o2 (n + 5) ⟨some 5, 1, false⟩ = _
    simp [runTicks, ht5, ht4, ht3, ht2, ht1,
      runTicks_no_interval o2 n ⟨none, 0, true⟩ rfl]

/-- Claim C7 witness: the zero-duration start is a no-op on the fresh state,
and seven ticks under `autoClose = 5000` emit `autocloseCalled` exactly once
and close the page. -/
theorem c7_witness :
    startAutoClose ⟨"s1", 0, false, "tokens"⟩ freshHostState = freshHostState
    ∧ runTicks ⟨"s1", 5000, false, "tokens"⟩ 7
        (startAutoClose ⟨"s1", 5000, false, "tokens"⟩ freshHostState)
      = (⟨none, 0, true⟩, [StatusEvent.autocloseCalled]) :=
  ⟨(c7_autoclose_zero_and_5000 ⟨"s1", 0, false, "tokens"⟩ ⟨"s1", 5000, false, "tokens"⟩
      (by decide) rfl).1 freshHostState,
   (c7_autoclose_zero_and_5000 ⟨"s1", 0, false, "tokens"⟩ ⟨"s1", 5000, false, "tokens"⟩
      (by decide) rfl).2.2.2 2⟩

/-- `cancelAutoClose` preserves the interval/live accounting. -/
theorem cancelAutoClose_consistent (s : HostState) (h : timerConsistent s) :
    timerConsistent (cancelAutoClose s) := by
  unfold timerConsistent at h ⊢
  cases hi : s.autoCloseInterval <;> rw [hi] at h <;> simp [cancelAutoClose, hi, h]

/-- `startAutoClose` preserves the interval/live accounting. -/
theorem startAutoClose_consistent (opts : CreateOptions) (s : HostState)
    (h : timerConsistent s) : timerConsistent (startAutoClose opts s) := by
  unfold timerConsistent at h ⊢
  unfold startAutoClose
  split
  · rename_i hg
    rw [hg.2] at h
    simp [h]
  · exact h

/-- `tryAutoCloseFire` preserves the interval/live accounting. -/
theorem tryAutoCloseFire_consistent (opts : CreateOptions) (s1 : HostState)
    (h : timerConsistent s1) : timerConsistent (tryAutoCloseFire opts s1).1 := by
  unfold timerConsistent at h ⊢
  unfold tryAutoCloseFire
  split <;> simpa using h

/-- `tryAutoClose` preserves the interval/live accounting. -/
theorem tryAutoClose_consistent (opts : CreateOptions) (s : HostState)
    (h : timerConsistent s) : timerConsistent (tryAutoClose opts s).1 := by
  unfold tryAutoClose
  apply tryAutoCloseFire_consistent
  split
  · exact cancelAutoClose_consistent s h
  · exact h

/-- One timer tick preserves the interval/live accounting. -/
theorem autoCloseTick_consistent (opts : CreateOptions) (s : HostState)
    (h : timerConsistent s) : timerConsistent (autoCloseTick opts s).1 := by
  unfold autoCloseTick
  cases hi : s.autoCloseInterval with
  | none => exact h
  | some r =>
    have hs : timerConsistent { s with autoCloseInterval := some (r - 1) } := by
      unfold timerConsistent at h ⊢
      rw [hi] at h
      simpa using h
    by_cases hp : s.pageClosed
    · simp only [hp, if_true]
      exact cancelAutoClose_consistent s h
    · simp only [hp, if_false]
      by_cases hz : r - 1 = 0
      · simp only [hz, if_true]
        exact tryAutoClose_consistent opts _ (by simpa [hz] using hs)
      · simp only [hz, if_false]
        exact hs

/-- Every timer operation preserves the interval/live accounting. -/
theorem applyOp_consistent (opts : CreateOptions) (s : HostState) (op : TimerOp)
    (h : timerConsistent s) : timerConsistent (applyOp opts s op) := by
  cases op with
  | start => exact startAutoClose_consistent opts s h
  | cancel => exact cancelAutoClose_consistent s h
  | tick => exact autoCloseTick_consistent opts s h
  | tryClose => exact tryAutoClose_consistent opts s h

/-- Running any operation sequence preserves the accounting. -/
theorem runOps_consistent (opts : CreateOptions) (ops : List TimerOp) :
    ∀ s : HostState, timerConsistent s → timerConsistent (runOps opts s ops) := by
  induction ops with
  | nil => intro s h; exact h
  | cons op rest ih =>
    intro s h
    exact ih (applyOp opts s op) (applyOp_consistent opts s op h)

/-- Claim C8: starting while a countdown runs is a no-op (no second interval
is created); cancel followed by start resets the countdown to the full
configured duration; cancel on an already-cancelled timer is a no-op; and
from a fresh state, any sequence of timer operations leaves at most one
uncancelled interval. -/
theorem c8_single_countdown (opts : CreateOptions) :
    (∀ s : HostState, s.autoCloseInterval.isSome = true → startAutoClose opts s = s)
    ∧ (0 < opts.autoClose → ∀ s : HostState,
        (startAutoClose opts (cancelAutoClose s)).autoCloseInterval
          = some (jsRoundSec opts.autoClose))
    ∧ (∀ s : HostState, s.autoCloseInterval = none → cancelAutoClose s = s)
    ∧ (∀ ops : List TimerOp, (runOps opts freshHostState ops).live ≤ 1) := by
  refine ⟨?_, ?_, ?_, ?_⟩
  · intro s hs
    have : ¬ (0 < opts.autoClose ∧ s.autoCloseInterval = none) := by
      rintro ⟨_, hnone⟩; rw [hnone] at hs; simp at hs
    simp [startAutoClose, this]
  · intro hpos s
    simp [startAutoClose, cancelAutoClose, hpos]
  · intro s hs
    cases s with
    | mk i l p => simp at hs; simp [cancelAutoClose, hs]
  · intro ops
    have hc := runOps_consistent opts ops freshHostState (by rfl)
    unfold timerConsistent at hc
    rw [hc]
    split <;> omega

/-- Claim C8 witness: concrete instances of each conjunct. -/
theorem c8_witness :
    startAutoClose ⟨"s1", 5000, false, "tokens"⟩ ⟨some 3, 1, false⟩ = ⟨some 3, 1, false⟩
    ∧ (startAutoClose ⟨"s1", 5000, false, "tokens"⟩
        (cancelAutoClose ⟨some 3, 1, false⟩)).autoCloseInterval = some 5
    ∧ cancelAutoClose freshHostState = freshHostState
    ∧ (runOps ⟨"s1", 5000, false, "tokens"⟩ freshHostState
        [TimerOp.start, TimerOp.start, TimerOp.tick, TimerOp.cancel, TimerOp.start]).live ≤ 1 :=
  ⟨(c8_single_countdown ⟨"s1", 5000, false, "tokens"⟩).1 ⟨some 3, 1, false⟩ rfl,
   (c8_single_countdown ⟨"s1", 5000, false, "tokens"⟩).2.1 (by decide) ⟨some 3, 1, false⟩,
   (c8_single_countdown ⟨"s1", 5000, false, "tokens"⟩).2.2.1 freshHostState rfl,
   (c8_single_countdown ⟨"s1", 5000, false, "tokens"⟩).2.2.2
     [TimerOp.start, TimerOp.start, TimerOp.tick, TimerOp.cancel, TimerOp.start]⟩

/-- The scan-loop callback trace, generalized over the loop variables: the
attempts enumerate consecutively from the current counter, and the reported
codes are the consecutive dedup of the fetched code sequence. -/
theorem scanRec_spec (opts : CreateOptions) (ascii : String → String)
    (sessionName : String) (iters : List ScanIteration) :
    ∀ (last : Option String) (attempt : Nat),
      ((scanRec opts ascii true sessionName last attempt iters).1.map QrCall.attempt
          = List.range' (attempt + 1) (dedupFrom last (fetchedCodes iters)).length)
        ∧ ((scanRec opts ascii true sessionName last attempt iters).1.map QrCall.urlCode
          = dedupFrom last (fetchedCodes iters)) := by
  induction iters with
  | nil => intro last attempt; simp [scanRec, fetchedCodes, dedupFrom]
  | cons it rest ih =>
    intro last attempt
    by_cases hn : it.needsScan = some true
    · rcases hq : getQrCode it.scrape it.retrieve with _ | q
      · simp [scanRec, fetchedCodes, hn, hq, dedupFrom]
      · by_cases hu : q.urlCode = ""
        · simp [scanRec, fetchedCodes, hn, hq, hu, dedupFrom]
        · by_cases hl : last = some q.urlCode
          · have hrec := ih (some q.urlCode) attempt
            simp [scanRec, fetchedCodes, hn, hq, hu, hl, dedupFrom, hrec.1, hrec.2]
          · have hrec := ih (some q.urlCode) (attempt + 1)
            simp [scanRec, fetchedCodes, hn, hq, hu, hl, dedupFrom, hrec.1, hrec.2,
              List.range'_succ]
    · simp [scanRec, fetchedCodes, hn, dedupFrom]

/-- Claim C5: with a registered QR observer, the attempt counter of
`waitForQrCodeScan` enumerates 1, 2, ... (monotonically increasing, one
callback invocation per increment), it advances exactly when the fetched
`urlCode` differs from the previously seen one (the callback trace is the
consecutive dedup of the fetched code sequence), and the scrape sequence
`[A, A, B, B, B]` yields exactly two invocations, with attempts 1 and 2. -/
theorem c5_qr_attempt_counter (opts : CreateOptions) (ascii : String → String)
    (sessionName : String) (iters : List ScanIteration) :
    ((waitForQrCodeScan opts ascii true sessionName iters).1.map QrCall.attempt
        = List.range' 1 (dedupFrom none (fetchedCodes iters)).length)
    ∧ ((waitForQrCodeScan opts ascii true sessionName iters).1.map QrCall.urlCode
        = dedupFrom none (fetchedCodes iters))
    ∧ ((waitForQrCodeScan opts ascii true sessionName exampleScrapes).1.map
          (fun c => (c.attempt, c.urlCode))
        = [(1, "A"), (2, "B")]) := by
  refine ⟨(scanRec_spec opts ascii sessionName iters none 0).1,
    (scanRec_spec opts ascii sessionName iters none 0).2, ?_⟩
  simp [waitForQrCodeScan, scanRec, exampleScrapes, qrIter, getQrCode]

/-- If the tail of `waitForLogin` returns `connected`, the `inChat` event was
appended to the trace and the interval handle was cleared. -/
theorem loginContinue_connected (opts : CreateOptions) (env : LoginEnv)
    (a : Option Bool) (evs : List StatusEvent) (qrs : List QrCall) (s : HostState)
    (h : (loginContinue opts env a evs qrs s).outcome = LoginOutcome.connected) :
    StatusEvent.inChat ∈ (loginContinue opts env a evs qrs s).events
    ∧ (loginContinue opts env a evs qrs s).finalState.autoCloseInterval = none := by
  rcases a with _ | b
  · simp [loginContinue] at h
  · cases b with
    | false => simp [loginContinue] at h
    | true =>
      rcases hw : waitForInChat env.inChatResults with _ | r
      · simp [loginContinue, hw] at h
      · rcases r with _ | b2
        · simp [loginContinue, hw] at h
        · cases b2 with
          | false => simp [loginContinue, hw] at h
          | true => simp [loginContinue, hw, cancelAutoClose]

/-- The tail of `waitForLogin` never raises `Not logged` unless it is entered
with `authenticated === false`. -/
theorem loginContinue_no_not_logged (opts : CreateOptions) (env : LoginEnv)
    (a : Option Bool) (evs : List StatusEvent) (qrs : List QrCall) (s : HostState)
    (ha : a ≠ some false) :
    (loginContinue opts env a evs qrs s).outcome ≠ LoginOutcome.thrown "Not logged" := by
  rcases a with _ | b
  · simp [loginContinue]
  · cases b with
    | false => exact absurd rfl ha
    | true =>
      rcases hw : waitForInChat env.inChatResults with _ | r
      · simp [loginContinue, hw]
      · rcases r with _ | b2
        · simp [loginContinue, hw]
        · cases b2 with
          | false => simp [loginContinue, hw]
          | true => simp [loginContinue, hw]

/-- Claim C6: whenever `waitForLogin` returns successfully (outcome
`Connected`), the `inChat` status event is in the emitted trace and the
auto-close interval handle is cleared in the final state. -/
theorem c6_connected_inchat_timer_cleared (opts : CreateOptions)
    (useCatchQR : Bool) (ascii : String → String) (sessionName : String)
    (env : LoginEnv) (s : HostState)
    (h : (waitForLogin opts useCatchQR ascii sessionName env s).outcome
        = LoginOutcome.connected) :
    StatusEvent.inChat ∈ (waitForLogin opts useCatchQR ascii sessionName env s).events
    ∧ (waitForLogin opts useCatchQR ascii sessionName env s).finalState.autoCloseInterval
        = none := by
  rcases env with ⟨fa, si, ra, icr⟩
  rcases fa with _ | b
  · exact loginContinue_connected opts ⟨none, si, ra, icr⟩ none [] [] _ h
  · cases b with
    | true => exact loginContinue_connected opts ⟨some true, si, ra, icr⟩ (some true) _ [] _ h
    | false =>
      simp only [waitForLogin] at h ⊢
      rcases hscan : waitForQrCodeScan opts ascii useCatchQR sessionName si with ⟨qrs, brk⟩
      rw [hscan] at h
      cases brk with
      | false => simp at h
      | true =>
        rcases ra with _ | b2
        · exact loginContinue_connected opts ⟨some false, si, none, icr⟩ none _ qrs _ h
        · cases b2 with
          | true =>
            exact loginContinue_connected opts ⟨some false, si, some true, icr⟩ (some true)
              _ qrs _ h
          | false => simp at h

/-- Claim C6 witness: a run that authenticates directly and finds the chat
interface at the first probe returns `Connected`, with `inChat` emitted and
the interval cleared. -/
theorem c6_witness :
    (waitForLogin plainOpts false plainAscii "s1" c6env freshHostState).outcome
        = LoginOutcome.connected
    ∧ (StatusEvent.inChat ∈ (waitForLogin plainOpts false plainAscii "s1" c6env
          freshHostState).events
      ∧ (waitForLogin plainOpts false plainAscii "s1" c6env
          freshHostState).finalState.autoCloseInterval = none) :=
  ⟨rfl, c6_connected_inchat_timer_cleared plainOpts false plainAscii "s1" c6env
    freshHostState rfl⟩

/-- Claim C9: the `Not logged` terminal failure is unreachable — on every
execution path `waitForLogin` raises some other reason or succeeds.  When the
post-scan re-probe is `false`, `Failed to read the QRCode` is raised inside
the scan branch, so the later `authenticated === false` check never fires. -/
theorem c9_not_logged_unreachable (opts : CreateOptions) (useCatchQR : Bool)
    (ascii : String → String) (sessionName : String) (env : LoginEnv)
    (s : HostState) :
    (waitForLogin opts useCatchQR ascii sessionName env s).outcome
      ≠ LoginOutcome.thrown "Not logged" := by
  rcases env with ⟨fa, si, ra, icr⟩
  rcases fa with _ | b
  · exact loginContinue_no_not_logged opts ⟨none, si, ra, icr⟩ none [] [] _ (by simp)
  · cases b with
    | true =>
      exact loginContinue_no_not_logged opts ⟨some true, si, ra, icr⟩ (some true) _ [] _
        (by simp)
    | false =>
      simp only [waitForLogin]
      rcases hscan : waitForQrCodeScan opts ascii useCatchQR sessionName si with ⟨qrs, brk⟩
      cases brk with
      | false => simp
      | true =>
        rcases ra with _ | b2
        · exact loginContinue_no_not_logged opts ⟨some false, si, none, icr⟩ none _ qrs _
            (by simp)
        · cases b2 with
          | true =>
            exact loginContinue_no_not_logged opts ⟨some false, si, some true, icr⟩
              (some true) _ qrs _ (by simp)
          | false => simp

/-- Claim C9 witness: the theorem at a concrete oracle (the C4 environment,
whose re-probe is indeterminate). -/
theorem c9_witness :
    (waitForLogin plainOpts false plainAscii "s1" c4env freshHostState).outcome
      ≠ LoginOutcome.thrown "Not logged" :=
  c9_not_logged_unreachable plainOpts false plainAscii "s1" c4env freshHostState

/-- Claim C4 counterexample: with the re-probe indeterminate after the scan
loop, `waitForLogin` emits `qrReadError` but terminates by raising
`Unknow error` — not `Failed to read the QRCode` as claimed. -/
theorem c4_counterexample :
    (waitForLogin plainOpts false plainAscii "s1" c4env freshHostState).outcome
        = LoginOutcome.thrown "Unknow error"
    ∧ (waitForLogin plainOpts false plainAscii "s1" c4env freshHostState).outcome
        ≠ LoginOutcome.thrown "Failed to read the QRCode"
    ∧ (waitForLogin plainOpts false plainAscii "s1" c4env freshHostState).events
        = [StatusEvent.notLogged, StatusEvent.qrReadError] := by
  refine ⟨rfl, ?_, rfl⟩
  decide

/-- Claim C4 as amended: if the post-scan authentication re-probe is
indeterminate (and the scan loop broke out), the sequencer emits
`qrReadError` and terminates by raising `Unknow error` (falling through to
the final unknown-error branch after a close attempt). -/
theorem c4_amended_qr_error_unknow (opts : CreateOptions) (useCatchQR : Bool)
    (ascii : String → String) (sessionName : String) (env : LoginEnv)
    (s : HostState)
    (h1 : env.firstAuth = some false)
    (h2 : (waitForQrCodeScan opts ascii useCatchQR sessionName env.scanIters).2 = true)
    (h3 : env.reAuth = none) :
    (waitForLogin opts useCatchQR ascii sessionName env s).outcome
        = LoginOutcome.thrown "Unknow error"
    ∧ StatusEvent.qrReadError ∈ (waitForLogin opts useCatchQR ascii sessionName env s).events := by
  simp only [waitForLogin, h1]
  rcases hscan : waitForQrCodeScan opts ascii useCatchQR sessionName env.scanIters
    with ⟨qrs, brk⟩
  rw [hscan] at h2
  simp only at h2
  cases brk with
  | false => exact absurd h2 (by simp)
  | true =>
    rw [h3]
    simp [loginContinue]

/-- Claim C4 witness: the amended statement discharged at the concrete oracle
of the counterexample. -/
theorem c4_witness :
    c4env.firstAuth = some false
    ∧ (waitForQrCodeScan plainOpts plainAscii false "s1" c4env.scanIters).2 = true
    ∧ c4env.reAuth = none
    ∧ ((waitForLogin plainOpts false plainAscii "s1" c4env freshHostState).outcome
          = LoginOutcome.thrown "Unknow error"
      ∧ StatusEvent.qrReadError
          ∈ (waitForLogin plainOpts false plainAscii "s1" c4env freshHostState).events) :=
  ⟨rfl, rfl, rfl,
    c4_amended_qr_error_unknow plainOpts false plainAscii "s1" c4env freshHostState
      rfl rfl rfl⟩
